import Mathlib

/-!
Shallow embedding of the MERN blog backend: the auth guard
(middleware/authMiddleware.js), the user routes (register, login, profile
update, get profile) and the post routes (update, delete, comment, like
toggle, paginated listing), together with the multer file filter shared by
both upload configurations.

JavaScript string operations used by the source (split, trim, toLowerCase,
substring test of the regex /jpeg|jpg|png/, path.extname) are modelled as
structurally recursive functions over lists of characters so that every
definition evaluates by kernel reduction.
-/

namespace Mern

/-- JS truthiness for strings: the empty string is falsy, all others truthy. -/
def jsTruthy (s : String) : Bool := s ≠ ""

/-- `leadsWith pat s` : `pat` is a prefix of `s` (over character lists). -/
def leadsWith : List Char → List Char → Bool
  | [], _ => true
  | _ :: _, [] => false
  | a :: as, b :: bs => a = b && leadsWith as bs

/-- `containsSub pat s` : `pat` occurs as a contiguous substring of `s`.
Models an unanchored regex literal test such as `/jpeg/.test(s)`. -/
def containsSub (pat : List Char) : List Char → Bool
  | [] => leadsWith pat []
  | c :: rest => leadsWith pat (c :: rest) || containsSub pat rest

/-- String-level substring test. -/
def strContains (s pat : String) : Bool := containsSub pat.toList s.toList

/-- Models JS `s.startsWith(pat)`. -/
def strStarts (s pat : String) : Bool := leadsWith pat.toList s.toList

/-- Models JS `s.split(sep)` for a one-character separator, over char lists.
`[]` splits to `[[]]`, matching `''.split(c) === ['']`. -/
def jsSplitList (sep : Char) : List Char → List (List Char)
  | [] => [[]]
  | c :: rest =>
    match jsSplitList sep rest with
    | [] => [[c]]
    | h :: t => if c = sep then [] :: h :: t else (c :: h) :: t

/-- Models JS `s.split(sep)` for a one-character separator. -/
def jsSplit (sep : Char) (s : String) : List String :=
  (jsSplitList sep s.toList).map List.asString

/-- Whitespace characters removed by JS `String.prototype.trim`. -/
def isWs (c : Char) : Bool := c = ' ' || c = '\t' || c = '\n' || c = '\r'

/-- Models JS `s.trim()`. -/
def jsTrim (s : String) : String :=
  (((s.toList.dropWhile isWs).reverse.dropWhile isWs).reverse).asString

/-- Models JS `s.toLowerCase()` on ASCII data. -/
def lowerStr (s : String) : String := (s.toList.map Char.toLower).asString

/-- Index of the last `'.'` in a character list, if any. -/
def lastDotIdx (l : List Char) : Option Nat :=
  ((List.range l.length).filter (fun i => l.get? i = some '.')).getLast?

/-- Models Node `path.extname(name)` for a plain basename: the substring
from the last dot, but `""` when there is no dot or the only dot is the
leading character (dotfiles). -/
def extnameStr (name : String) : String :=
  let l := name.toList
  match lastDotIdx l with
  | none => ""
  | some i => if i = 0 then "" else (l.drop i).asString

/-- The regex test `/jpeg|jpg|png/.test(s)`: `s` contains one of the three
substrings (unanchored). -/
def filetypesTest (s : String) : Bool :=
  strContains s "jpeg" || strContains s "jpg" || strContains s "png"

/-- The multer `fileFilter` shared by the post-image and profile-picture
upload configurations: accept iff the lowercased `path.extname` of the
original name passes the regex test and the declared mimetype passes the
same test. -/
def fileFilter (originalname mimetype : String) : Bool :=
  filetypesTest (lowerStr (extnameStr originalname)) && filetypesTest mimetype

/-- The allow-list reading of the spec: the file extension itself is one of
jpeg / jpg / png (case-insensitive, with the leading dot `path.extname`
produces). Stated from the spec's words, for comparison with `fileFilter`. -/
def specExtAllowed (ext : String) : Bool :=
  lowerStr ext = ".jpeg" || lowerStr ext = ".jpg" || lowerStr ext = ".png"

/-- Document ids compared via `toString()` in the source. -/
abbrev Id := String

/-- A stored user record (userModel fields used by the routes; `password`
holds the stored one-way hash). -/
structure User where
  _id : Id
  username : String
  email : String
  password : String
  profilePicture : String
  bio : String
deriving Repr, DecidableEq

/-- The user as attached to the request by the auth guard: loaded with
`.select('-password')`, so the password field is absent by construction. -/
structure AuthUser where
  _id : Id
  username : String
  email : String
  profilePicture : String
  bio : String
deriving Repr, DecidableEq

/-- `.select('-password')` : every field of the record except the password. -/
def selectNoPassword (u : User) : AuthUser :=
  ⟨u._id, u.username, u.email, u.profilePicture, u.bio⟩

/-- An embedded comment: `{ text, user }` as pushed by the comments route. -/
structure Comment where
  text : String
  user : Id
deriving Repr, DecidableEq

/-- A stored post record (postModel fields used by the routes). -/
structure Post where
  _id : Id
  title : String
  content : String
  author : Id
  tags : List String
  image : String
  comments : List Comment
  likes : List Id
deriving Repr, DecidableEq

/-- A JSON response body, by shape: an object rendered as key/value pairs,
or one of the array payloads the post routes send. -/
inductive Body where
  | obj : List (String × String) → Body
  | post : Post → Body
  | commentList : List Comment → Body
  | likeList : List Id → Body
  | page : List Post → Nat → Nat → Nat → Body
deriving Repr, DecidableEq

/-- The keys of an object body (array bodies carry no keys). -/
def bodyKeys : Body → List String
  | .obj kvs => kvs.map Prod.fst
  | _ => []

/-- An HTTP response: final status code and JSON body. -/
structure Response where
  status : Nat
  body : Body
deriving Repr, DecidableEq

/-- `User.findOne({ email })` over the modelled collection. -/
def findByEmail (users : List User) (email : String) : Option User :=
  users.find? (fun u => u.email == email)

/-- `User.findById` over the modelled collection. -/
def findUserById (users : List User) (uid : Id) : Option User :=
  users.find? (fun u => u._id == uid)

/-- `Post.findById` over the modelled collection. -/
def findPostById (posts : List Post) (pid : Id) : Option Post :=
  posts.find? (fun p => p._id == pid)

/-- Replace the post with the given id (the effect of `post.save()` on a
loaded document). -/
def savePost (posts : List Post) (p2 : Post) : List Post :=
  posts.map (fun q => if q._id == p2._id then p2 else q)

/-- Replace the user with the given id (the effect of `user.save()`). -/
def saveUser (users : List User) (u2 : User) : List User :=
  users.map (fun q => if q._id == u2._id then u2 else q)

/-- The auth guard `protect`. `verify` models `jwt.verify` under the
process secret (`none` = throws), `users` is the credential store, and
`authHeader` the request's authorization header (`none` = absent).
Returns the attached password-less user, or the 401 response it sends.

JS specifics modelled: the header must be truthy (nonempty) and
`startsWith('Bearer')` — no space required; the token is the second
element of `split(' ')`,
which is `undefined` when the header has no space (then `jwt.verify`
throws and the catch sends the token-failed 401). -/
def protect (verify : String → Option Id) (users : List User)
    (authHeader : Option String) : Except Response AuthUser :=
  match authHeader with
  | none => .error ⟨401, .obj [("message", "Not authorized, no token")]⟩
  | some h =>
    if jsTruthy h && strStarts h "Bearer" then
      match (jsSplit ' ' h)[1]? with
      | none => .error ⟨401, .obj [("message", "Not authorized, token failed"),
                                   ("error", "jwt must be provided")]⟩
      | some tok =>
        match verify tok with
        | none => .error ⟨401, .obj [("message", "Not authorized, token failed"),
                                     ("error", "invalid token")]⟩
        | some uid =>
          match findUserById users uid with
          | none => .error ⟨401, .obj [("message", "Not authorized, token failed"),
                                       ("error", "User not found")]⟩
          | some u => .ok (selectNoPassword u)
    else
      .error ⟨401, .obj [("message", "Not authorized, no token")]⟩

/-- `POST /api/users/register`. `hash` models the pre-save bcrypt hook
(modelled from the spec: userModel is not under src; the spec says the
password is hashed one-way and salted before storage), `sign` models
`generateToken`, `newId` the id the store assigns. Returns the response
and the store after the request. -/
def register (hash : String → String) (sign : Id → String)
    (users : List User) (username email password newId : String) :
    Response × List User :=
  if !jsTruthy username || !jsTruthy email || !jsTruthy password then
    (⟨400, .obj [("message", "Please provide all required fields")]⟩, users)
  else
    match users.find? (fun u => u.email == email || u.username == username) with
    | some ex =>
      (⟨400, .obj [("message",
        if ex.email == email then "Email already registered"
        else "Username already taken")]⟩, users)
    | none =>
      let u : User := ⟨newId, username, email, hash password, "", ""⟩
      (⟨201, .obj [("_id", newId), ("username", username), ("email", email),
                   ("token", sign newId)]⟩, users ++ [u])

/-- `POST /api/users/login`. `pwMatches` models `user.matchPassword`
(modelled from the spec: userModel is not under src; the spec's
Credential Store exposes a password-match check against the stored hash),
applied to the entered password and the stored hash. -/
def login (pwMatches : String → String → Bool) (sign : Id → String)
    (users : List User) (email password : String) : Response :=
  if !jsTruthy email || !jsTruthy password then
    ⟨400, .obj [("message", "Please provide email and password")]⟩
  else
    match findByEmail users email with
    | none => ⟨401, .obj [("message", "Invalid email or password")]⟩
    | some u =>
      if pwMatches password u.password then
        ⟨200, .obj [("_id", u._id), ("username", u.username),
                    ("email", u.email), ("profilePicture", u.profilePicture),
                    ("token", sign u._id)]⟩
      else ⟨401, .obj [("message", "Invalid email or password")]⟩

/-- The fields of a profile-update request: `none` = absent from the body;
`file` is the stored filename when a multipart `profilePicture` part was
accepted. -/
structure ProfileReq where
  username : Option String
  email : Option String
  bio : Option String
  password : Option String
  file : Option String
deriving Repr, DecidableEq

/-- `x = req.body.f || x` : overwrite only when the field is present and
truthy (nonempty); absent or empty keeps the prior value. -/
def truthyUpdate (new : Option String) (old : String) : String :=
  match new with
  | some s => if jsTruthy s then s else old
  | none => old

/-- The in-place field updates of `PUT /api/users/profile` on the loaded
user, including the `if (req.body.password)` rehash (`hash` as in
`register`). -/
def updateUserFields (hash : String → String) (u : User) (r : ProfileReq) :
    User :=
  { u with
    username := truthyUpdate r.username u.username
    email := truthyUpdate r.email u.email
    bio := truthyUpdate r.bio u.bio
    profilePicture :=
      match r.file with
      | some f => "/uploads/profiles/" ++ f
      | none => u.profilePicture
    password :=
      match r.password with
      | some p => if jsTruthy p then hash p else u.password
      | none => u.password }

/-- `PUT /api/users/profile` (behind `protect`). When the user id is not
found the handler sets status 404 and throws, but the catch block replies
with `res.status(400)`, so the sent status is 400. -/
def putProfile (hash : String → String) (sign : Id → String)
    (users : List User) (uid : Id) (r : ProfileReq) : Response × List User :=
  match findUserById users uid with
  | none => (⟨400, .obj [("message", "User not found")]⟩, users)
  | some u =>
    let u2 := updateUserFields hash u r
    (⟨200, .obj [("_id", u2._id), ("username", u2.username),
                 ("email", u2.email), ("profilePicture", u2.profilePicture),
                 ("bio", u2.bio), ("token", sign u2._id)]⟩, saveUser users u2)

/-- `GET /api/users/profile/:id`: the user loaded with
`.select('-password')`, i.e. every stored field except the password. -/
def getProfile (users : List User) (uid : Id) : Response :=
  match findUserById users uid with
  | none => ⟨404, .obj [("message", "User not found")]⟩
  | some u =>
    ⟨200, .obj [("_id", u._id), ("username", u.username),
                ("email", u.email), ("profilePicture", u.profilePicture),
                ("bio", u.bio)]⟩

/-- The fields of a post-update request: `none` = absent from the body;
`file` is the stored filename when a multipart `image` part was accepted. -/
structure PostUpdateReq where
  title : Option String
  content : Option String
  tags : Option String
  file : Option String
deriving Repr, DecidableEq

/-- `tags.split(',').map(tag => tag.trim())`. -/
def splitTags (s : String) : List String := (jsSplit ',' s).map jsTrim

/-- The in-place field updates of `PUT /api/posts/:id` on the loaded post:
`title`/`content` via `||`, `tags` re-split only when truthy, `image`
replaced only when a file was uploaded. -/
def updatePostFields (p : Post) (r : PostUpdateReq) : Post :=
  { p with
    title := truthyUpdate r.title p.title
    content := truthyUpdate r.content p.content
    tags :=
      match r.tags with
      | some s => if jsTruthy s then splitTags s else p.tags
      | none => p.tags
    image :=
      match r.file with
      | some f => "/uploads/posts/" ++ f
      | none => p.image }

/-- `PUT /api/posts/:id` (behind `protect`), called with the authenticated
user's id. When the post is missing the handler sets status 404 and
throws; when the caller is not the author it sets status 401 and throws;
in both cases the catch block replies with `res.status(400).json`, so the
status actually sent is 400. -/
def putPost (posts : List Post) (pid : Id) (userId : Id)
    (r : PostUpdateReq) : Response × List Post :=
  match findPostById posts pid with
  | none => (⟨400, .obj [("message", "Post not found")]⟩, posts)
  | some p =>
    if p.author != userId then
      (⟨400, .obj [("message", "Not authorized to update this post")]⟩, posts)
    else
      let p2 := updatePostFields p r
      (⟨200, .post p2⟩, savePost posts p2)

/-- `DELETE /api/posts/:id` (behind `protect`). This handler uses early
`return res.status(...)` replies, so its 404 and 401 are sent as such. -/
def deletePost (posts : List Post) (pid : Id) (userId : Id) :
    Response × List Post :=
  match findPostById posts pid with
  | none => (⟨404, .obj [("message", "Post not found")]⟩, posts)
  | some p =>
    if p.author != userId then
      (⟨401, .obj [("message", "Not authorized to delete this post")]⟩, posts)
    else
      (⟨200, .obj [("message", "Post deleted successfully"), ("postId", p._id)]⟩,
       posts.filter (fun q => q._id != pid))

/-- `POST /api/posts/:id/comments` (behind `protect`). When the post is
missing the handler sets status 404 and throws, but the catch block
replies with `res.status(400)`, so the sent status is 400. -/
def addComment (posts : List Post) (pid : Id) (userId : Id) (text : String) :
    Response × List Post :=
  match findPostById posts pid with
  | none => (⟨400, .obj [("message", "Post not found")]⟩, posts)
  | some p =>
    let p2 := { p with comments := p.comments ++ [⟨text, userId⟩] }
    (⟨201, .commentList p2.comments⟩, savePost posts p2)

/-- The like-toggle on a likes array: `findIndex` by string equality; when
absent, push the caller's id; when present, filter out every occurrence. -/
def toggleLike (likes : List Id) (userId : Id) : List Id :=
  if likes.any (fun i => i == userId) then
    likes.filter (fun i => i != userId)
  else
    likes ++ [userId]

/-- `PATCH /api/posts/:id/like` (behind `protect`): 404 when the post is
missing (early return), otherwise toggle and reply with the new array. -/
def likePost (posts : List Post) (pid : Id) (userId : Id) :
    Response × List Post :=
  match findPostById posts pid with
  | none => (⟨404, .obj [("message", "Post not found")]⟩, posts)
  | some p =>
    let p2 := { p with likes := toggleLike p.likes userId }
    (⟨200, .likeList p2.likes⟩, savePost posts p2)

/-- The keyword filter of `GET /api/posts`: `$regex` with option `i` on
title or content, i.e. case-insensitive substring match. -/
def keywordFilter (posts : List Post) (kw : Option String) : List Post :=
  match kw with
  | none => posts
  | some k =>
    posts.filter (fun p =>
      strContains (lowerStr p.title) (lowerStr k)
        || strContains (lowerStr p.content) (lowerStr k))

/-- `GET /api/posts` with `pageSize = 10`: `posts` is the store's matching
documents in result order (most recent first); `pageQ` is
`Number(req.query.page)` with `0` standing for an absent or non-numeric
query (`|| 1`). Returns the response fields
`{ posts, page, pages, total }`. -/
def getPosts (posts : List Post) (kw : Option String) (pageQ : Nat) :
    Response :=
  let page := if pageQ = 0 then 1 else pageQ
  let matching := keywordFilter posts kw
  let count := matching.length
  ⟨200, .page ((matching.drop (10 * (page - 1))).take 10) page
    ((count + 10 - 1) / 10) count⟩

/-- Helper: a field assigned with `x = req.body.f || x` takes the new value
when the new value is present and nonempty. -/
theorem truthyUpdate_overwrite (s old : String) (h : s ≠ "") :
    truthyUpdate (some s) old = s := by simp [truthyUpdate, jsTruthy, h]

/-- Helper: a field assigned with `x = req.body.f || x` keeps the old value
when the new value is absent or the empty string. -/
theorem truthyUpdate_keep (o : Option String) (old : String)
    (h : o = none ∨ o = some "") : truthyUpdate o old = old := by
  rcases h with rfl | rfl <;> simp [truthyUpdate, jsTruthy]

/-- Claim C1 (code evaluated at the failing input): on a store holding one
post authored by alice, a PUT by bob leaves the store unchanged but is
answered with status 400 — the handler sets 401 and throws, and its catch
block replies with status 400 — while a DELETE by bob is answered 401 with
the store unchanged, as the claim states. -/
theorem nonowner_put_sends_400_delete_sends_401 :
    (putPost [⟨"p1", "T", "C", "alice", [], "", [], []⟩] "p1" "bob"
        ⟨some "X", none, none, none⟩).1.status = 400 ∧
    (putPost [⟨"p1", "T", "C", "alice", [], "", [], []⟩] "p1" "bob"
        ⟨some "X", none, none, none⟩).2
      = [⟨"p1", "T", "C", "alice", [], "", [], []⟩] ∧
    (deletePost [⟨"p1", "T", "C", "alice", [], "", [], []⟩] "p1" "bob").1
      = ⟨401, .obj [("message", "Not authorized to delete this post")]⟩ ∧
    (deletePost [⟨"p1", "T", "C", "alice", [], "", [], []⟩] "p1" "bob").2
      = [⟨"p1", "T", "C", "alice", [], "", [], []⟩] := by decide

/-- Claim C2, counterexample: the header `"Bearerxyz tok"` is not of the
shape `"Bearer"` + space + token, yet the guard accepts it and attaches
the user — `startsWith('Bearer')` does not require the space, and
`split(' ')[1]` still extracts a verifying token. -/
theorem malformed_bearer_header_accepted :
    strStarts "Bearerxyz tok" "Bearer " = false ∧
    protect (fun t => if t = "tok" then some "u1" else none)
      [⟨"u1", "alice", "a@b.c", "hash", "", ""⟩] (some "Bearerxyz tok")
      = .ok ⟨"u1", "alice", "a@b.c", "", ""⟩ := ⟨by decide, by rfl⟩

/-- Claim C2, amended, as a full characterization of the guard: (1) it
replies 401 with the no-token message exactly when the header is absent,
empty, or does not start with the string `"Bearer"` (space not required);
(2) when the header is nonempty and starts with `"Bearer"`, the guard
accepts whenever the text after the first space is a token that verifies
and resolves to a stored user — attached without its password — and
otherwise replies 401 with the token-failed message for each failure
(no second split component, unverifiable token, missing user); (3) every
acceptance arises that way. -/
theorem protect_characterization (verify : String → Option Id)
    (users : List User) (hdr : Option String) :
    (protect verify users hdr
        = .error ⟨401, .obj [("message", "Not authorized, no token")]⟩
      ↔ (hdr = none ∨ ∃ s, hdr = some s
            ∧ (jsTruthy s && strStarts s "Bearer") = false)) ∧
    (∀ s, hdr = some s → (jsTruthy s && strStarts s "Bearer") = true →
      (∀ tok uid u, (jsSplit ' ' s)[1]? = some tok → verify tok = some uid →
        findUserById users uid = some u →
        protect verify users hdr = .ok (selectNoPassword u)) ∧
      ((jsSplit ' ' s)[1]? = none →
        protect verify users hdr = .error ⟨401, .obj
          [("message", "Not authorized, token failed"),
           ("error", "jwt must be provided")]⟩) ∧
      (∀ tok, (jsSplit ' ' s)[1]? = some tok → verify tok = none →
        protect verify users hdr = .error ⟨401, .obj
          [("message", "Not authorized, token failed"),
           ("error", "invalid token")]⟩) ∧
      (∀ tok uid, (jsSplit ' ' s)[1]? = some tok → verify tok = some uid →
        findUserById users uid = none →
        protect verify users hdr = .error ⟨401, .obj
          [("message", "Not authorized, token failed"),
           ("error", "User not found")]⟩)) ∧
    (∀ au, protect verify users hdr = .ok au →
      ∃ s tok uid u, hdr = some s ∧ strStarts s "Bearer" = true ∧
        (jsSplit ' ' s)[1]? = some tok ∧ verify tok = some uid ∧
        findUserById users uid = some u ∧ au = selectNoPassword u) := by
  refine ⟨?_, ?_, ?_⟩
  · constructor
    · intro he
      cases hdr with
      | none => exact Or.inl rfl
      | some s =>
        by_cases hb : (jsTruthy s && strStarts s "Bearer") = true
        · exfalso
          cases htok : (jsSplit ' ' s)[1]? with
          | none => simp [protect, hb, htok] at he
          | some tok =>
            cases hv : verify tok with
            | none => simp [protect, hb, htok, hv] at he
            | some uid =>
              cases hu : findUserById users uid with
              | none => simp [protect, hb, htok, hv, hu] at he
              | some u => simp [protect, hb, htok, hv, hu] at he
        · exact Or.inr ⟨s, rfl, eq_false_of_ne_true hb⟩
    · rintro (rfl | ⟨s, rfl, hb⟩)
      · rfl
      · unfold protect
        simp [hb]
  · rintro s rfl hb
    refine ⟨?_, ?_, ?_, ?_⟩
    · intro tok uid u htok hv hu
      simp [protect, hb, htok, hv, hu]
    · intro htok
      simp [protect, hb, htok]
    · intro tok htok hv
      simp [protect, hb, htok, hv]
    · intro tok uid htok hv hu
      simp [protect, hb, htok, hv, hu]
  · intro au hok
    cases hdr with
    | none => exact Except.noConfusion hok
    | some s =>
      by_cases hb : (jsTruthy s && strStarts s "Bearer") = true
      · cases htok : (jsSplit ' ' s)[1]? with
        | none => simp [protect, hb, htok] at hok
        | some tok =>
          cases hv : verify tok with
          | none => simp [protect, hb, htok, hv] at hok
          | some uid =>
            cases hu : findUserById users uid with
            | none => simp [protect, hb, htok, hv, hu] at hok
            | some u =>
              simp [protect, hb, htok, hv, hu] at hok
              exact ⟨s, tok, uid, u, rfl, (Bool.and_eq_true _ _ |>.mp hb).2,
                htok, hv, hu, hok.symm⟩
      · simp [protect, hb] at hok

/-- Witness for `protect_characterization`: a well-formed bearer header
with a verifying token is accepted and the stored user is attached
without its password, while a header that does not start with `"Bearer"`
gets the no-token 401. -/
theorem protect_characterization_witness :
    protect (fun t => if t = "tok" then some "u1" else none)
      [⟨"u1", "alice", "a@b.c", "hash", "", ""⟩] (some "Bearer tok")
      = .ok ⟨"u1", "alice", "a@b.c", "", ""⟩ ∧
    protect (fun t => if t = "tok" then some "u1" else none)
      [⟨"u1", "alice", "a@b.c", "hash", "", ""⟩] (some "xyz")
      = .error ⟨401, .obj [("message", "Not authorized, no token")]⟩ :=
  ⟨((protect_characterization (fun t => if t = "tok" then some "u1" else none)
      [⟨"u1", "alice", "a@b.c", "hash", "", ""⟩] (some "Bearer tok")).2.1
      "Bearer tok" rfl (by decide)).1 "tok" "u1"
      ⟨"u1", "alice", "a@b.c", "hash", "", ""⟩ (by decide) (by decide)
      (by decide),
   (protect_characterization (fun t => if t = "tok" then some "u1" else none)
      [⟨"u1", "alice", "a@b.c", "hash", "", ""⟩] (some "xyz")).1.mpr
     (Or.inr ⟨"xyz", rfl, by decide⟩)⟩

/-- Claim C3, counterexample: a file named `a.xyzjpg` — extension
`.xyzjpg`, outside the allow-list — with declared content-type `jpg` is
accepted by the filter, because the regex `/jpeg|jpg|png/` is an
unanchored substring test. -/
theorem fileFilter_accepts_non_allowlisted_ext :
    fileFilter "a.xyzjpg" "jpg" = true ∧
    specExtAllowed (extnameStr "a.xyzjpg") = false := by decide

/-- Claim C3, amended: the filter accepts exactly when the lowercased
extension contains one of the substrings jpeg, jpg, png and the declared
content-type contains one of them; in particular a `.gif` extension is
always rejected, and an allow-listed extension with an image/...
allow-listed content-type is always accepted. -/
theorem fileFilter_characterization (name mime : String) :
    (fileFilter name mime = true ↔
      (filetypesTest (lowerStr (extnameStr name)) = true
        ∧ filetypesTest mime = true)) ∧
    (lowerStr (extnameStr name) = ".gif" → fileFilter name mime = false) ∧
    (specExtAllowed (extnameStr name) = true → filetypesTest mime = true →
      fileFilter name mime = true) := by
  refine ⟨by simp [fileFilter], ?_, ?_⟩
  · intro h
    unfold fileFilter
    rw [h]
    have hg : filetypesTest ".gif" = false := by decide
    simp [hg]
  · intro hs hm
    unfold specExtAllowed at hs
    simp only [Bool.or_eq_true, decide_eq_true_eq] at hs
    unfold fileFilter
    rw [hm]
    rcases hs with (h | h) | h <;> rw [h] <;> decide

/-- Witness for `fileFilter_characterization`: a `.GIF` upload is rejected
and a `.png` upload with content-type `image/png` is accepted. -/
theorem fileFilter_characterization_witness :
    fileFilter "a.GIF" "image/gif" = false ∧
    fileFilter "b.png" "image/png" = true :=
  ⟨(fileFilter_characterization "a.GIF" "image/gif").2.1 (by decide),
   (fileFilter_characterization "b.png" "image/png").2.2 (by decide) (by decide)⟩

/-- Claim C4: a login with an email matching no stored user and a login
with a stored email but a non-matching password both produce the same
response: status 401 with the message Invalid email or password. -/
theorem login_failures_indistinguishable (pwMatches : String → String → Bool)
    (sign : Id → String) (users : List User) (e1 p1 e2 p2 : String)
    (u : User) (h1e : e1 ≠ "") (h1p : p1 ≠ "") (h2e : e2 ≠ "") (h2p : p2 ≠ "")
    (habs : findByEmail users e1 = none)
    (hex : findByEmail users e2 = some u)
    (hpw : pwMatches p2 u.password = false) :
    login pwMatches sign users e1 p1
      = ⟨401, .obj [("message", "Invalid email or password")]⟩ ∧
    login pwMatches sign users e2 p2 = login pwMatches sign users e1 p1 := by
  have hl1 : login pwMatches sign users e1 p1
      = ⟨401, .obj [("message", "Invalid email or password")]⟩ := by
    unfold login
    simp [jsTruthy, h1e, h1p, habs]
  have hl2 : login pwMatches sign users e2 p2
      = ⟨401, .obj [("message", "Invalid email or password")]⟩ := by
    unfold login
    simp [jsTruthy, h2e, h2p, hex, hpw]
  exact ⟨hl1, hl2.trans hl1.symm⟩

/-- Witness for `login_failures_indistinguishable` on a one-user store:
the unknown-email failure and the wrong-password failure coincide. -/
theorem login_failures_indistinguishable_witness :
    login (fun p h => h == ("h:" ++ p)) (fun i => "t:" ++ i)
      [⟨"u1", "alice", "a@b.c", "h:secret", "", ""⟩] "x@y.z" "pw"
      = ⟨401, .obj [("message", "Invalid email or password")]⟩ ∧
    login (fun p h => h == ("h:" ++ p)) (fun i => "t:" ++ i)
      [⟨"u1", "alice", "a@b.c", "h:secret", "", ""⟩] "a@b.c" "wrong"
      = login (fun p h => h == ("h:" ++ p)) (fun i => "t:" ++ i)
          [⟨"u1", "alice", "a@b.c", "h:secret", "", ""⟩] "x@y.z" "pw" :=
  login_failures_indistinguishable (fun p h => h == ("h:" ++ p))
    (fun i => "t:" ++ i) [⟨"u1", "alice", "a@b.c", "h:secret", "", ""⟩]
    "x@y.z" "pw" "a@b.c" "wrong" ⟨"u1", "alice", "a@b.c", "h:secret", "", ""⟩
    (by decide) (by decide) (by decide) (by decide)
    (by decide) (by decide) (by decide)

/-- Claim C5: no response payload carries the stored password: the
register, login, profile-update and get-profile bodies never contain a
password key, every 401 body of the auth guard is password-free, and a
user accepted by the guard is attached as `selectNoPassword` of a stored
record. -/
theorem password_never_in_response (hash : String → String)
    (sign : Id → String) (pwMatches : String → String → Bool)
    (verify : String → Option Id) (users : List User)
    (username email password newId : String) (uid : Id) (r : ProfileReq)
    (hdr : Option String) :
    "password" ∉ bodyKeys
      (register hash sign users username email password newId).1.body ∧
    "password" ∉ bodyKeys (login pwMatches sign users email password).body ∧
    "password" ∉ bodyKeys (putProfile hash sign users uid r).1.body ∧
    "password" ∉ bodyKeys (getProfile users uid).body ∧
    (∀ e, protect verify users hdr = .error e →
      "password" ∉ bodyKeys e.body) ∧
    (∀ au, protect verify users hdr = .ok au →
      ∃ u, au = selectNoPassword u) := by
  refine ⟨?_, ?_, ?_, ?_, ?_, ?_⟩
  · unfold register
    split
    · simp [bodyKeys]
    · split
      · simp [bodyKeys]
      · simp [bodyKeys]
  · unfold login
    split
    · simp [bodyKeys]
    · split
      · simp [bodyKeys]
      · split
        · simp [bodyKeys]
        · simp [bodyKeys]
  · unfold putProfile
    split
    · simp [bodyKeys]
    · simp [bodyKeys]
  · unfold getProfile
    split
    · simp [bodyKeys]
    · simp [bodyKeys]
  · intro e he
    cases hdr with
    | none =>
      simp only [protect, Except.error.injEq] at he
      rw [← he]
      decide
    | some s =>
      by_cases hb : (jsTruthy s && strStarts s "Bearer") = true
      · cases htok : (jsSplit ' ' s)[1]? with
        | none =>
          simp only [protect, hb, if_true, htok, Except.error.injEq] at he
          rw [← he]; decide
        | some tok =>
          cases hv : verify tok with
          | none =>
            simp only [protect, hb, if_true, htok, hv,
              Except.error.injEq] at he
            rw [← he]; decide
          | some uid2 =>
            cases hu : findUserById users uid2 with
            | none =>
              simp only [protect, hb, if_true, htok, hv, hu,
                Except.error.injEq] at he
              rw [← he]; decide
            | some u =>
              simp [protect, hb, htok, hv, hu] at he
      · simp only [protect, Bool.not_eq_true] at he
        rw [eq_false_of_ne_true hb] at he
        simp only [Bool.false_eq_true, if_false, Except.error.injEq] at he
        rw [← he]; decide
  · intro au hok
    cases hdr with
    | none => exact Except.noConfusion hok
    | some s =>
      by_cases hb : (jsTruthy s && strStarts s "Bearer") = true
      · cases htok : (jsSplit ' ' s)[1]? with
        | none => simp [protect, hb, htok] at hok
        | some tok =>
          cases hv : verify tok with
          | none => simp [protect, hb, htok, hv] at hok
          | some uid2 =>
            cases hu : findUserById users uid2 with
            | none => simp [protect, hb, htok, hv, hu] at hok
            | some u =>
              simp [protect, hb, htok, hv, hu] at hok
              exact ⟨u, hok.symm⟩
      · simp [protect, hb] at hok

/-- Witness for `password_never_in_response`: the profile body of a stored
user has no password key, and the user the guard attaches for a valid
bearer token is the stored record without its password. -/
theorem password_never_in_response_witness :
    "password" ∉ bodyKeys
      (getProfile [⟨"u1", "alice", "a@b.c", "h:pw", "", ""⟩] "u1").body ∧
    (∃ u, (⟨"u1", "alice", "a@b.c", "", ""⟩ : AuthUser)
      = selectNoPassword u) := by
  have h := password_never_in_response (fun s => "h:" ++ s)
    (fun i => "t:" ++ i) (fun _ _ => false)
    (fun t => if t = "tok" then some "u1" else none)
    [⟨"u1", "alice", "a@b.c", "h:pw", "", ""⟩] "alice" "a@b.c" "pw" "u2"
    "u1" ⟨none, none, none, none, none⟩ (some "Bearer tok")
  exact ⟨h.2.2.2.1, h.2.2.2.2.2 ⟨"u1", "alice", "a@b.c", "", ""⟩ rfl⟩

/-- Claim C6, counterexample: a PUT by the author whose body contains the
title field with the empty string — a present field — leaves the stored
title "Old" instead of overwriting it, because the handler assigns with
`req.body.title || post.title`. -/
theorem present_empty_field_not_overwritten :
    (⟨some "", none, none, none⟩ : PostUpdateReq).title = some "" ∧
    (putPost [⟨"p1", "Old", "C", "alice", [], "", [], []⟩] "p1" "alice"
        ⟨some "", none, none, none⟩).1.status = 200 ∧
    (putPost [⟨"p1", "Old", "C", "alice", [], "", [], []⟩] "p1" "alice"
        ⟨some "", none, none, none⟩).2
      = [⟨"p1", "Old", "C", "alice", [], "", [], []⟩] := by decide

/-- Claim C6, amended: in the post update and the profile update, a field
present with a nonempty value overwrites the stored field, and a field
absent or present as the empty string leaves the stored value unchanged
(so a present field never clears the stored field). -/
theorem partial_update_truthy_semantics (p : Post) (r : PostUpdateReq)
    (u : User) (pr : ProfileReq) (hash : String → String) :
    ((∀ t, r.title = some t → t ≠ "" → (updatePostFields p r).title = t) ∧
     (r.title = none ∨ r.title = some "" →
        (updatePostFields p r).title = p.title)) ∧
    ((∀ c, r.content = some c → c ≠ "" →
        (updatePostFields p r).content = c) ∧
     (r.content = none ∨ r.content = some "" →
        (updatePostFields p r).content = p.content)) ∧
    ((∀ s, r.tags = some s → s ≠ "" →
        (updatePostFields p r).tags = splitTags s) ∧
     (r.tags = none ∨ r.tags = some "" →
        (updatePostFields p r).tags = p.tags)) ∧
    ((∀ s, pr.username = some s → s ≠ "" →
        (updateUserFields hash u pr).username = s) ∧
     (pr.username = none ∨ pr.username = some "" →
        (updateUserFields hash u pr).username = u.username)) ∧
    ((∀ s, pr.email = some s → s ≠ "" →
        (updateUserFields hash u pr).email = s) ∧
     (pr.email = none ∨ pr.email = some "" →
        (updateUserFields hash u pr).email = u.email)) ∧
    ((∀ s, pr.bio = some s → s ≠ "" → (updateUserFields hash u pr).bio = s) ∧
     (pr.bio = none ∨ pr.bio = some "" →
        (updateUserFields hash u pr).bio = u.bio)) := by
  refine ⟨⟨?_, ?_⟩, ⟨?_, ?_⟩, ⟨?_, ?_⟩, ⟨?_, ?_⟩, ⟨?_, ?_⟩, ⟨?_, ?_⟩⟩
  · intro t ht hne
    simp [updatePostFields, ht, truthyUpdate_overwrite t p.title hne]
  · intro h
    simp [updatePostFields, truthyUpdate_keep r.title p.title h]
  · intro c hc hne
    simp [updatePostFields, hc, truthyUpdate_overwrite c p.content hne]
  · intro h
    simp [updatePostFields, truthyUpdate_keep r.content p.content h]
  · intro s hs hne
    simp [updatePostFields, hs, jsTruthy, hne]
  · intro h
    rcases h with h | h <;> simp [updatePostFields, h, jsTruthy]
  · intro s hs hne
    simp [updateUserFields, hs, truthyUpdate_overwrite s u.username hne]
  · intro h
    simp [updateUserFields, truthyUpdate_keep pr.username u.username h]
  · intro s hs hne
    simp [updateUserFields, hs, truthyUpdate_overwrite s u.email hne]
  · intro h
    simp [updateUserFields, truthyUpdate_keep pr.email u.email h]
  · intro s hs hne
    simp [updateUserFields, hs, truthyUpdate_overwrite s u.bio hne]
  · intro h
    simp [updateUserFields, truthyUpdate_keep pr.bio u.bio h]

/-- Witness for `partial_update_truthy_semantics`: a nonempty title in the
request body does overwrite the stored title. -/
theorem partial_update_truthy_semantics_witness :
    (updatePostFields ⟨"p1", "Old", "C", "alice", [], "", [], []⟩
      ⟨some "New", none, none, none⟩).title = "New" :=
  (partial_update_truthy_semantics ⟨"p1", "Old", "C", "alice", [], "", [], []⟩
    ⟨some "New", none, none, none⟩ ⟨"u1", "a", "e", "p", "", ""⟩
    ⟨none, none, none, none, none⟩ (fun s => s)).1.1 "New" rfl (by decide)

/-- Claim C7 (code evaluated at the failing input): with no post of id
`p9` in the store, the update and comment handlers reply with status 400 —
each sets 404 and throws, and its catch block replies with
`res.status(400)` — while the delete handler replies 404 as the claim
states. -/
theorem missing_post_put_comment_send_400_delete_404 :
    (putPost [⟨"p1", "T", "C", "alice", [], "", [], []⟩] "p9" "bob"
        ⟨some "X", none, none, none⟩).1.status = 400 ∧
    (addComment [⟨"p1", "T", "C", "alice", [], "", [], []⟩] "p9" "bob"
        "hi").1.status = 400 ∧
    (deletePost [⟨"p1", "T", "C", "alice", [], "", [], []⟩]
        "p9" "bob").1.status = 404 := by decide

/-- Claim C8, counterexample: toggling the like of user u twice on the
likes list [u, v] yields [v, u], not the original list — the second toggle
re-appends u at the end, so the list is not returned to its original
state. -/
theorem double_toggle_reorders_likes :
    ("u" : Id) ∈ (["u", "v"] : List Id) ∧
    toggleLike (toggleLike ["u", "v"] "u") "u" ≠ ["u", "v"] ∧
    toggleLike (toggleLike ["u", "v"] "u") "u" = ["v", "u"] := by decide

/-- Claim C8, amended: toggling twice with the same user restores the
likes list exactly when the user was absent; when the user was present the
result is the other entries in order with the user's id re-appended at the
end; in both cases membership is restored: every id is in the final list
iff it was in the original. -/
theorem double_toggle_membership_roundtrip (likes : List Id) (u : Id) :
    (u ∉ likes → toggleLike (toggleLike likes u) u = likes) ∧
    (u ∈ likes → toggleLike (toggleLike likes u) u
        = likes.filter (fun i => i != u) ++ [u]) ∧
    (∀ x, x ∈ toggleLike (toggleLike likes u) u ↔ x ∈ likes) := by
  have hmem : ∀ (l : List Id), (l.any fun i => i == u) = true ↔ u ∈ l := by
    intro l; simp [List.any_eq_true]
  have habs : u ∉ likes → toggleLike (toggleLike likes u) u = likes := by
    intro hu
    have h1 : toggleLike likes u = likes ++ [u] := by
      unfold toggleLike
      have hf : (likes.any fun i => i == u) = false := by
        rw [← Bool.not_eq_true, hmem]; exact hu
      simp [hf]
    have h2 : toggleLike (likes ++ [u]) u = likes := by
      unfold toggleLike
      have ht : ((likes ++ [u]).any fun i => i == u) = true :=
        (hmem _).mpr (by simp)
      have hself : likes.filter (fun i => i != u) = likes :=
        List.filter_eq_self.mpr (fun a ha => by
          simp only [bne_iff_ne, ne_eq, decide_eq_true_eq]
          exact fun h => hu (h ▸ ha))
      simp [ht, List.filter_append, hself]
    rw [h1, h2]
  have hpres : u ∈ likes → toggleLike (toggleLike likes u) u
      = likes.filter (fun i => i != u) ++ [u] := by
    intro hu
    have h1 : toggleLike likes u = likes.filter (fun i => i != u) := by
      unfold toggleLike
      simp [(hmem likes).mpr hu]
    have h2 : toggleLike (likes.filter (fun i => i != u)) u
        = likes.filter (fun i => i != u) ++ [u] := by
      unfold toggleLike
      have hf : ((likes.filter fun i => i != u).any fun i => i == u)
          = false := by
        rw [← Bool.not_eq_true, hmem]
        simp
      simp [hf]
    rw [h1, h2]
  refine ⟨habs, hpres, ?_⟩
  intro x
  by_cases hu : u ∈ likes
  · rw [hpres hu]
    simp only [List.mem_append, List.mem_filter, List.mem_singleton]
    constructor
    · rintro (⟨hx, _⟩ | rfl)
      · exact hx
      · exact hu
    · intro hx
      by_cases hxu : x = u
      · exact Or.inr hxu
      · exact Or.inl ⟨hx, by simp [hxu]⟩
  · rw [habs hu]

/-- Witness for `double_toggle_membership_roundtrip` at the list [u, v]:
the double toggle equals the filtered list with u re-appended. -/
theorem double_toggle_membership_roundtrip_witness :
    toggleLike (toggleLike ["u", "v"] "u") "u"
      = (["u", "v"] : List Id).filter (fun i => i != "u") ++ ["u"] :=
  (double_toggle_membership_roundtrip ["u", "v"] "u").2.1 (by decide)

/-- Claim C9: for any store, any keyword and any page p ≥ 1, the listing
returns exactly the ten (or fewer) matching documents after skipping the
first 10·(p−1), and the pages value is the least number of ten-item pages
covering all matching documents, i.e. the ceiling of total/10. -/
theorem pagination_page_size_and_ceiling (posts : List Post)
    (kw : Option String) (p : Nat) (hp : 1 ≤ p) :
    getPosts posts kw p
      = ⟨200, .page (((keywordFilter posts kw).drop (10 * (p - 1))).take 10)
          p (((keywordFilter posts kw).length + 10 - 1) / 10)
          (keywordFilter posts kw).length⟩ ∧
    (((keywordFilter posts kw).drop (10 * (p - 1))).take 10).length ≤ 10 ∧
    (keywordFilter posts kw).length
      ≤ 10 * (((keywordFilter posts kw).length + 10 - 1) / 10) ∧
    (∀ m, (keywordFilter posts kw).length ≤ 10 * m →
      ((keywordFilter posts kw).length + 10 - 1) / 10 ≤ m) := by
  refine ⟨?_, ?_, ?_, ?_⟩
  · unfold getPosts
    have hnz : ¬ (p = 0) := by omega
    simp [hnz]
  · rw [List.length_take]
    omega
  · omega
  · intro m hm
    omega

/-- Witness for `pagination_page_size_and_ceiling` on a one-post store at
page 1: the whole store is returned and pages = 1. -/
theorem pagination_page_size_and_ceiling_witness :
    getPosts [⟨"p1", "T", "C", "alice", [], "", [], []⟩] none 1
      = ⟨200, .page [⟨"p1", "T", "C", "alice", [], "", [], []⟩] 1 1 1⟩ := by
  rw [(pagination_page_size_and_ceiling
    [⟨"p1", "T", "C", "alice", [], "", [], []⟩] none 1 (by decide)).1]
  decide

/-- Claim C10: after a like toggle the caller's id occurs at most once in
the likes list, whatever the list held before: an absent id is appended
once, and a present id has every occurrence removed. -/
theorem toggle_leaves_at_most_one_occurrence (likes : List Id) (u : Id) :
    (toggleLike likes u).count u ≤ 1 := by
  unfold toggleLike
  by_cases h : likes.any (fun i => i == u)
  · simp only [h, if_true]
    have h0 : (likes.filter (fun i => i != u)).count u = 0 := by
      rw [List.count_eq_zero]
      intro hm
      have := List.of_mem_filter hm
      simp at this
    omega
  · have h' : (likes.any fun i => i == u) = false := eq_false_of_ne_true h
    simp only [h', Bool.false_eq_true, if_false]
    rw [List.count_append]
    have h0 : likes.count u = 0 := by
      rw [List.count_eq_zero]
      intro hm
      exact h (List.any_eq_true.mpr ⟨u, hm, by simp⟩)
    simp [h0]

end Mern
